import Mathlib

/-
Verification of the Smart Comfort Climate decision engine
(custom_components/smart_comfort_climate/climate.py).

Shallow embedding conventions:
  * Python floats are modelled as real numbers (the dew-point computation
    uses math.log, embedded as Real.log), so the metric functions live on ℝ.
  * The purely order-theoretic parts of the controller (the comfort
    classifier, the mode-selection priority ladder and the command
    generation) only compare and add numbers, so they are defined
    polymorphically over a linear ordered field and can be evaluated
    exactly at ℚ.
  * Host-platform state objects (hass.states.get results) are modelled by
    an Option of a reading classification: a missing entity is none; a
    present entity is unknown, unavailable, a non-numeric string (float()
    raises ValueError), or a numeric value.
  * The log strings (the third component of the tuple returned by
    _determine_climate_action and the _LOGGER calls) are pure logging and
    carry no control flow, so they are omitted from the embedding.
-/

namespace SmartComfortClimate

/- climate.py lines 218-235: _calculate_dew_point (Magnus formula with
   a = 17.625, b = 243.04; humidity outside (0, 100] returns the
   sentinel 0). -/
noncomputable def calculate_dew_point (temp_f humidity : ℝ) : ℝ :=
  if humidity ≤ 0 ∨ humidity > 100 then 0
  else
    let temp_c := (temp_f - 32) * 5 / 9
    let a : ℝ := 17.625
    let b : ℝ := 243.04
    let alpha := Real.log (humidity / 100) + (a * temp_c) / (b + temp_c)
    let dew_point_c := (b * alpha) / (a - alpha)
    (dew_point_c * 9 / 5) + 32

/- climate.py lines 252-265: _calculate_heat_index (NOAA 9-term
   polynomial). -/
noncomputable def calculate_heat_index (temp_f humidity : ℝ) : ℝ :=
  -42.379 +
    2.04901523 * temp_f +
    10.14333127 * humidity -
    0.22475541 * temp_f * humidity -
    0.00683783 * temp_f * temp_f -
    0.05481717 * humidity * humidity +
    0.00122874 * temp_f * temp_f * humidity +
    0.00085282 * temp_f * humidity * humidity -
    0.00000199 * temp_f * temp_f * humidity * humidity

/- climate.py lines 237-250: _calculate_feels_like_temperature. -/
noncomputable def calculate_feels_like_temperature (temp_f humidity : ℝ) : ℝ :=
  if temp_f ≥ 80 ∧ humidity ≥ 40 then
    calculate_heat_index temp_f humidity
  else
    let dew_point := calculate_dew_point temp_f humidity
    if dew_point > 65 then temp_f + (dew_point - 55) * 0.4
    else if dew_point > 55 then temp_f + (dew_point - 55) * 0.2
    else temp_f

/- climate.py lines 267-282: _get_comfort_status.  Only comparisons with
   numeric literals, so defined over any linear ordered field. -/
def get_comfort_status {α : Type} [LinearOrderedField α] (dew_point : α) : String :=
  if dew_point > 65 then "Oppressive"
  else if dew_point > 60 then "Muggy"
  else if dew_point > 55 then "Slightly Humid"
  else if dew_point > 50 then "Comfortable"
  else if dew_point > 45 then "Very Comfortable"
  else if dew_point > 35 then "Dry"
  else "Very Dry"

/- climate.py lines 340-412: _determine_climate_action.  The source
   returns a (mode, setpoint, reason) triple; the reason is a log string
   and is dropped here.  DEW_POINT_OPPRESSIVE = 65 (const.py), and the
   mode constants are the strings MODE_PRIORITY_COOL = "cool",
   MODE_PRIORITY_DRY = "dry", MODE_PRIORITY_FAN = "fan_only",
   MODE_PRIORITY_OFF = "off".  self.target_feels_like is read inside the
   source method; it is passed here as the last argument. -/
def determine_climate_action {α : Type} [LinearOrderedField α]
    (dew_point feels_like_diff current_temp current_humidity
      target_humidity target_feels_like : α) : String × Option α :=
  if current_humidity > target_humidity then
    if feels_like_diff > 2 then
      ("cool", some (min (current_temp - 2) (target_feels_like - 1)))
    else
      ("dry", some target_feels_like)
  else if dew_point > 65 then
    if feels_like_diff > 0 then
      ("cool", some (min (current_temp - 3) (target_feels_like - 2)))
    else
      ("dry", some target_feels_like)
  else if feels_like_diff > 2 then
    ("cool", some (current_temp - 1))
  else if feels_like_diff > 1 then
    ("fan_only", none)
  else if feels_like_diff < -4 then
    ("off", none)
  else
    ("fan_only", none)

/- Outbound service calls made by the controller: climate.set_hvac_mode
   and climate.set_temperature on the configured entity. -/
inductive Command (α : Type) where
  | setHvacMode (mode : String)
  | setTemperature (temperature : α)
deriving DecidableEq

/- The mutable fields of SmartComfortClimate that the evaluation paths
   read or write (climate.py lines 110-120), plus the controller's own
   mode and on-flag. -/
structure ControllerState (α : Type) where
  current_temperature : Option α
  current_humidity : Option α
  feels_like_temperature : Option α
  dew_point : Option α
  comfort_status : Option String
  underlying_hvac_mode : Option String
  hvac_mode : String
  is_on : Bool

/- climate.py lines 284-338: _async_execute_comfort_control.  Reads the
   stored metrics, runs the ladder, then sends a set_hvac_mode command
   when the decided mode differs from the observed underlying mode
   (Python `target_mode != self._underlying_hvac_mode`; a string is never
   equal to None, so a missing observation always differs) and a
   set_temperature command under Python truthiness of target_temp
   (`if target_temp and target_mode in ["cool", "dry"]`: not None and
   not equal to 0). -/
def mode_command {α : Type} (underlying_hvac_mode : Option String)
    (action : String × Option α) : List (Command α) :=
  if some action.1 ≠ underlying_hvac_mode then
    [Command.setHvacMode action.1]
  else []

def setpoint_command {α : Type} [LinearOrderedField α] :
    String × Option α → List (Command α)
  | (target_mode, some target_temp) =>
    if target_temp ≠ 0 ∧ (target_mode = "cool" ∨ target_mode = "dry") then
      [Command.setTemperature target_temp]
    else []
  | (_, none) => []

def async_execute_comfort_control {α : Type} [LinearOrderedField α]
    (s : ControllerState α) (target_feels_like target_humidity : α) :
    List (Command α) :=
  match s.current_temperature, s.current_humidity,
      s.feels_like_temperature, s.dew_point with
  | some current_temp, some current_humidity, some feels_like, some dew_point =>
    let feels_like_diff := feels_like - target_feels_like
    let action := determine_climate_action dew_point feels_like_diff
      current_temp current_humidity target_humidity target_feels_like
    mode_command s.underlying_hvac_mode action ++ setpoint_command action
  | _, _, _, _ => []

/- Classification of a host state object's .state string as the update
   handler branches on it: the STATE_UNKNOWN / STATE_UNAVAILABLE strings,
   a string on which float() raises, or a numeric reading. -/
inductive RawState where
  | unknown
  | unavailable
  | nonNumeric
  | numeric (value : ℝ)

/- Membership test `state in [STATE_UNKNOWN, STATE_UNAVAILABLE]`. -/
def is_unknown_or_unavailable : RawState → Bool
  | RawState.unknown => true
  | RawState.unavailable => true
  | _ => false

/- Python float() applied to the raw state: succeeds exactly on a
   numeric reading. -/
def parse_float : RawState → Option ℝ
  | RawState.numeric v => some v
  | _ => none

/- climate.py lines 180-216: _async_update_state.  Mirrors the source
   control flow exactly, including the sequencing inside the try block:
   self._current_temperature is assigned before float() is applied to the
   humidity string, so a humidity parse failure leaves the freshly
   written temperature behind. -/
noncomputable def async_update_state (s : ControllerState ℝ)
    (temp_state humidity_state : Option RawState)
    (climate_state : Option String)
    (target_feels_like target_humidity : ℝ) :
    ControllerState ℝ × List (Command ℝ) :=
  match temp_state, humidity_state, climate_state with
  | some ts, some hs, some cs =>
    if is_unknown_or_unavailable ts then (s, [])
    else if is_unknown_or_unavailable hs then (s, [])
    else
      match parse_float ts with
      | none => (s, [])
      | some t =>
        let s1 := { s with current_temperature := some t }
        match parse_float hs with
        | none => (s1, [])
        | some h =>
          let dew := calculate_dew_point t h
          let s2 := { s1 with
            current_humidity := some h,
            dew_point := some dew,
            feels_like_temperature := some (calculate_feels_like_temperature t h),
            comfort_status := some (get_comfort_status dew),
            underlying_hvac_mode := some cs }
          if s2.hvac_mode = "auto" ∧ s2.is_on = true then
            (s2, async_execute_comfort_control s2 target_feels_like target_humidity)
          else (s2, [])
  | _, _, _ => (s, [])

/- climate.py lines 450-465: async_set_temperature.  Stores the new
   target feels-like in the config options, then re-runs the comfort
   control only in auto mode while on.  Returns the effective target and
   the emitted commands. -/
def async_set_temperature {α : Type} [LinearOrderedField α]
    (s : ControllerState α) (temperature : Option α)
    (target_feels_like target_humidity : α) : α × List (Command α) :=
  match temperature with
  | none => (target_feels_like, [])
  | some t =>
    if s.hvac_mode = "auto" ∧ s.is_on = true then
      (t, async_execute_comfort_control s t target_humidity)
    else (t, [])

/- Spec-side definitions, written from the wording of spec.md (for the
   refinement claims that compare the code against the spec text). -/

/- spec.md section 4.3, Variant A: the humidity-priority ladder as the
   spec words it. -/
def variantA_priority_ladder {α : Type} [LinearOrderedField α]
    (dew_point feels_like_diff current_temp current_humidity
      target_humidity target_feels_like : α) : String × Option α :=
  if current_humidity > target_humidity then
    if feels_like_diff > 2 then
      ("cool", some (min (current_temp - 2) (target_feels_like - 1)))
    else
      ("dry", some target_feels_like)
  else
    if dew_point > 65 then
      if feels_like_diff > 0 then
        ("cool", some (min (current_temp - 3) (target_feels_like - 2)))
      else
        ("dry", some target_feels_like)
    else
      if feels_like_diff > 2 then ("cool", some (current_temp - 1))
      else if feels_like_diff > 1 then ("fan_only", none)
      else if feels_like_diff < -4 then ("off", none)
      else ("fan_only", none)

/- spec.md section 4.1: the dew-point-adjustment path of feelsLike
   (the non-heat-index formula family), as the spec words it. -/
noncomputable def dew_point_adjustment (tempF humidityPct : ℝ) : ℝ :=
  let dew := calculate_dew_point tempF humidityPct
  if dew > 65 then tempF + 0.4 * (dew - 55)
  else if 55 < dew ∧ dew ≤ 65 then tempF + 0.2 * (dew - 55)
  else tempF

/- spec.md section 4.1: feelsLike as the spec words it. -/
noncomputable def feelsLike_spec (tempF humidityPct : ℝ) : ℝ :=
  if tempF ≥ 80 ∧ humidityPct ≥ 40 then calculate_heat_index tempF humidityPct
  else dew_point_adjustment tempF humidityPct

/- spec.md section 4.1: the Magnus formula body of dewPoint as the spec
   words it (Celsius conversion, a = 17.625, b = 243.04, alpha, dewC,
   conversion back to Fahrenheit), without the sentinel branch. -/
noncomputable def magnus_dew_point_spec (tempF humidityPct : ℝ) : ℝ :=
  let tempC := (tempF - 32) * 5 / 9
  let a : ℝ := 17.625
  let b : ℝ := 243.04
  let alpha := Real.log (humidityPct / 100) + a * tempC / (b + tempC)
  let dewC := b * alpha / (a - alpha)
  dewC * 9 / 5 + 32

/-- C1: for every numeric dew_point, feels_like_diff, current_temp,
current_humidity, target_humidity and target_feels_like, the decision
function _determine_climate_action returns exactly the Variant A priority
ladder of the spec: humidity over target dominates (cool at
min(current_temp-2, target_feels_like-1) when feels_like_diff > 2, else
dry at target_feels_like); otherwise dew_point > 65 (cool at
min(current_temp-3, target_feels_like-2) when feels_like_diff > 0, else
dry at target_feels_like); otherwise cool at current_temp-1 when
feels_like_diff > 2, fan_only when feels_like_diff > 1, off when
feels_like_diff < -4, and fan_only otherwise, with no setpoint for
fan_only and off. -/
theorem determine_climate_action_is_variantA {α : Type} [LinearOrderedField α]
    (dew_point feels_like_diff current_temp current_humidity
      target_humidity target_feels_like : α) :
    determine_climate_action dew_point feels_like_diff current_temp
      current_humidity target_humidity target_feels_like =
    variantA_priority_ladder dew_point feels_like_diff current_temp
      current_humidity target_humidity target_feels_like := by
  rfl

/-- C3: the comfort classifier is a total function whose bands partition
the line with strict lower bounds, scanning thresholds high to low:
Oppressive on (65, ∞), Muggy on (60, 65], Slightly Humid on (55, 60],
Comfortable on (50, 55], Very Comfortable on (45, 50], Dry on (35, 45],
and Very Dry on (-∞, 35]. -/
theorem get_comfort_status_bands (d : ℚ) :
    (get_comfort_status d = "Oppressive" ↔ 65 < d) ∧
    (get_comfort_status d = "Muggy" ↔ 60 < d ∧ d ≤ 65) ∧
    (get_comfort_status d = "Slightly Humid" ↔ 55 < d ∧ d ≤ 60) ∧
    (get_comfort_status d = "Comfortable" ↔ 50 < d ∧ d ≤ 55) ∧
    (get_comfort_status d = "Very Comfortable" ↔ 45 < d ∧ d ≤ 50) ∧
    (get_comfort_status d = "Dry" ↔ 35 < d ∧ d ≤ 45) ∧
    (get_comfort_status d = "Very Dry" ↔ d ≤ 35) := by
  unfold get_comfort_status
  split_ifs with h1 h2 h3 h4 h5 h6 <;>
    refine ⟨?_, ?_, ?_, ?_, ?_, ?_, ?_⟩ <;> simp_all <;>
    first
      | linarith
      | (intro h; linarith)

/-- C4 (counterexample): the spec example classify(65.0) = "Slightly
Humid" is false on the code: the classifier returns "Muggy" at a dew
point of exactly 65, since 65 > 65 fails but 65 > 60 holds. -/
theorem get_comfort_status_at_65_refutes_spec :
    get_comfort_status (65 : ℚ) = "Muggy" ∧
    ¬ get_comfort_status (65 : ℚ) = "Slightly Humid" := by
  decide

/-- C4 (amended): at the boundary values the classifier yields
classify(65.0) = "Muggy" and classify(65.01) = "Oppressive". -/
theorem get_comfort_status_boundary_values :
    get_comfort_status (65 : ℚ) = "Muggy" ∧
    get_comfort_status (65.01 : ℚ) = "Oppressive" := by
  constructor
  · decide
  · unfold get_comfort_status
    norm_num

/-- C2: for every tempF and humidityPct, the feels-like computation
returns the heat index exactly when tempF ≥ 80 and humidityPct ≥ 40 and
otherwise the dew-point adjustment (tempF + 0.4*(dew-55) for dew > 65,
tempF + 0.2*(dew-55) for 55 < dew ≤ 65, tempF unchanged otherwise); in
particular feelsLike(80, 40) equals heatIndex(80, 40) exactly while
feelsLike(79.9, 40) is computed by the dew-point-adjustment branch. -/
theorem feels_like_matches_spec :
    (∀ tempF humidityPct : ℝ,
      calculate_feels_like_temperature tempF humidityPct =
        feelsLike_spec tempF humidityPct) ∧
    calculate_feels_like_temperature 80 40 = calculate_heat_index 80 40 ∧
    calculate_feels_like_temperature 79.9 40 = dew_point_adjustment 79.9 40 := by
  have key : ∀ tempF humidityPct : ℝ,
      calculate_feels_like_temperature tempF humidityPct =
        feelsLike_spec tempF humidityPct := by
    intro t h
    unfold calculate_feels_like_temperature feelsLike_spec dew_point_adjustment
    by_cases hc : t ≥ 80 ∧ h ≥ 40
    · simp only [if_pos hc]
    · simp only [if_neg hc]
      by_cases h1 : calculate_dew_point t h > 65
      · simp only [if_pos h1]; ring
      · simp only [if_neg h1]
        by_cases h2 : calculate_dew_point t h > 55
        · have h2s : 55 < calculate_dew_point t h ∧
              calculate_dew_point t h ≤ 65 := ⟨h2, by linarith⟩
          simp only [if_pos h2, if_pos h2s]; ring
        · have h2s : ¬ (55 < calculate_dew_point t h ∧
              calculate_dew_point t h ≤ 65) := fun hh => h2 hh.1
          simp only [if_neg h2, if_neg h2s]
  refine ⟨key, ?_, ?_⟩
  · unfold calculate_feels_like_temperature
    have : (80 : ℝ) ≥ 80 ∧ (40 : ℝ) ≥ 40 := by norm_num
    simp only [if_pos this]
  · rw [key]
    unfold feelsLike_spec
    have : ¬ ((79.9 : ℝ) ≥ 80 ∧ (40 : ℝ) ≥ 40) := by
      rintro ⟨h80, -⟩; norm_num at h80
    simp only [if_neg this]

/-- C5: for every humidity outside (0, 100] and every temperature the
dew-point computation returns the sentinel 0 (and, being a total
function, raises no error); for humidity inside (0, 100] it returns the
Magnus-formula value (Celsius conversion, a = 17.625, b = 243.04,
alpha = ln(humidity/100) + a*tempC/(b+tempC), dewC = b*alpha/(a-alpha),
converted back to Fahrenheit) and never the sentinel path. -/
theorem dew_point_sentinel_and_magnus (tempF humidityPct : ℝ) :
    ((humidityPct ≤ 0 ∨ humidityPct > 100) →
      calculate_dew_point tempF humidityPct = 0) ∧
    (0 < humidityPct → humidityPct ≤ 100 →
      calculate_dew_point tempF humidityPct =
        magnus_dew_point_spec tempF humidityPct) := by
  constructor
  · intro hbad
    unfold calculate_dew_point
    simp only [if_pos hbad]
  · intro h0 h100
    have hok : ¬ (humidityPct ≤ 0 ∨ humidityPct > 100) := by
      rintro (h | h) <;> linarith
    unfold calculate_dew_point magnus_dew_point_spec
    simp only [if_neg hok]

/-- C5 (witness): at humidity 150 the dew point is the sentinel 0, and
at humidity 50 it is the Magnus-formula value. -/
theorem dew_point_sentinel_and_magnus_witness :
    ((150 : ℝ) > 100 ∧ calculate_dew_point 70 150 = 0) ∧
    (0 < (50 : ℝ) ∧ (50 : ℝ) ≤ 100 ∧
      calculate_dew_point 70 50 = magnus_dew_point_spec 70 50) := by
  refine ⟨⟨by norm_num, ?_⟩, by norm_num,
    by norm_num, ?_⟩
  · exact (dew_point_sentinel_and_magnus 70 150).1 (Or.inr (by norm_num))
  · exact (dew_point_sentinel_and_magnus 70 50).2 (by norm_num) (by norm_num)

/- The inputs on which _async_update_state returns before computing the
   metrics: an absent entity, a temperature or humidity flagged unknown
   or unavailable, or a temperature or humidity that fails float(). -/
def skipped_input (temp_state humidity_state : Option RawState)
    (climate_state : Option String) : Bool :=
  match temp_state, humidity_state, climate_state with
  | none, _, _ => true
  | _, none, _ => true
  | _, _, none => true
  | some ts, some hs, some _ =>
    is_unknown_or_unavailable ts || is_unknown_or_unavailable hs ||
      (parse_float ts).isNone || (parse_float hs).isNone

/- A concrete controller state holding a previously stored temperature
   of 60, used to exhibit the partial write on a humidity parse
   failure. -/
def partial_write_state : ControllerState ℝ :=
  { current_temperature := some 60
    current_humidity := none
    feels_like_temperature := none
    dew_point := none
    comfort_status := none
    underlying_hvac_mode := none
    hvac_mode := "auto"
    is_on := true }

/-- C6 (counterexample): an update event whose temperature reading is
the number 72 but whose humidity reading fails numeric parsing is
skipped without commands, yet the stored current temperature is mutated
from 60 to 72 before the skip — the skip is not atomic. -/
theorem update_state_skip_not_atomic :
    skipped_input (some (RawState.numeric 72)) (some RawState.nonNumeric)
      (some "cool") = true ∧
    (async_update_state partial_write_state (some (RawState.numeric 72))
      (some RawState.nonNumeric) (some "cool") 72 45).2 = [] ∧
    (async_update_state partial_write_state (some (RawState.numeric 72))
      (some RawState.nonNumeric) (some "cool") 72 45).1.current_temperature =
      some 72 ∧
    partial_write_state.current_temperature = some 60 ∧
    (72 : ℝ) ≠ 60 := by
  refine ⟨rfl, rfl, rfl, rfl, by norm_num⟩

/-- C6 (amended): whenever an update event arrives with a required
entity missing, a temperature or humidity reading flagged
unknown/unavailable, or a reading failing numeric parsing, the
evaluation is skipped: no device command is emitted and the stored state
is left unchanged, except that when the temperature reading parses
numerically and the humidity reading fails numeric parsing, the stored
current temperature is updated to the new reading before the skip. -/
theorem update_state_skip_semantics (s : ControllerState ℝ)
    (temp_state humidity_state : Option RawState)
    (climate_state : Option String) (target_feels_like target_humidity : ℝ)
    (hskip : skipped_input temp_state humidity_state climate_state = true) :
    (async_update_state s temp_state humidity_state climate_state
      target_feels_like target_humidity).2 = [] ∧
    ((async_update_state s temp_state humidity_state climate_state
        target_feels_like target_humidity).1 = s ∨
      (∃ v, temp_state = some (RawState.numeric v) ∧
        humidity_state = some RawState.nonNumeric ∧
        (async_update_state s temp_state humidity_state climate_state
          target_feels_like target_humidity).1 =
          { s with current_temperature := some v })) := by
  match temp_state, humidity_state, climate_state with
  | none, _, _ => exact ⟨rfl, Or.inl rfl⟩
  | some ts, none, _ =>
    cases ts <;> exact ⟨rfl, Or.inl rfl⟩
  | some ts, some hs, none =>
    cases ts <;> cases hs <;> exact ⟨rfl, Or.inl rfl⟩
  | some ts, some hs, some cs =>
    cases ts with
    | unknown => exact ⟨rfl, Or.inl rfl⟩
    | unavailable => exact ⟨rfl, Or.inl rfl⟩
    | nonNumeric =>
      cases hs <;> exact ⟨rfl, Or.inl rfl⟩
    | numeric v =>
      cases hs with
      | unknown => exact ⟨rfl, Or.inl rfl⟩
      | unavailable => exact ⟨rfl, Or.inl rfl⟩
      | nonNumeric => exact ⟨rfl, Or.inr ⟨v, rfl, rfl, rfl⟩⟩
      | numeric w => simp [skipped_input, is_unknown_or_unavailable,
          parse_float] at hskip

/-- C6 (witness for the amended claim): an event with the temperature
entity missing is skipped with no command and no state change. -/
theorem update_state_skip_semantics_witness :
    skipped_input none (some (RawState.numeric 50)) (some "cool") = true ∧
    ((async_update_state partial_write_state none
        (some (RawState.numeric 50)) (some "cool") 72 45).2 = [] ∧
      ((async_update_state partial_write_state none
          (some (RawState.numeric 50)) (some "cool") 72 45).1 =
          partial_write_state ∨
        (∃ v, (none : Option RawState) = some (RawState.numeric v) ∧
          (some (RawState.numeric 50) : Option RawState) =
            some RawState.nonNumeric ∧
          (async_update_state partial_write_state none
            (some (RawState.numeric 50)) (some "cool") 72 45).1 =
            { partial_write_state with current_temperature := some v }))) :=
  ⟨rfl, update_state_skip_semantics partial_write_state none
    (some (RawState.numeric 50)) (some "cool") 72 45 rfl⟩

/-- C7: while the controller is disabled (is_on = false) or its own mode
is off rather than auto, an evaluation cycle emits no outbound set-mode
or set-setpoint command to the underlying device, for all input readings
and targets; the same holds for a target-temperature change. -/
theorem no_commands_while_disabled (s : ControllerState ℝ)
    (temp_state humidity_state : Option RawState)
    (climate_state : Option String)
    (new_temperature : Option ℝ) (target_feels_like target_humidity : ℝ)
    (hdis : ¬ (s.hvac_mode = "auto" ∧ s.is_on = true)) :
    (async_update_state s temp_state humidity_state climate_state
      target_feels_like target_humidity).2 = [] ∧
    (async_set_temperature s new_temperature
      target_feels_like target_humidity).2 = [] := by
  constructor
  · match temp_state, humidity_state, climate_state with
    | none, _, _ => rfl
    | some ts, none, _ => cases ts <;> rfl
    | some ts, some hs, none => cases ts <;> cases hs <;> rfl
    | some ts, some hs, some cs =>
      cases ts with
      | unknown => rfl
      | unavailable => rfl
      | nonNumeric => cases hs <;> rfl
      | numeric v =>
        cases hs with
        | unknown => rfl
        | unavailable => rfl
        | nonNumeric => rfl
        | numeric w =>
          unfold async_update_state
          simp only [is_unknown_or_unavailable, parse_float,
            Bool.false_eq_true, if_false]
          rw [if_neg hdis]
  · match new_temperature with
    | none => rfl
    | some t =>
      show (if s.hvac_mode = "auto" ∧ s.is_on = true then
          (t, async_execute_comfort_control s t target_humidity)
        else (t, [])).2 = []
      rw [if_neg hdis]

/- A concrete switched-off controller state for the disabled-controller
   check. -/
def disabled_state : ControllerState ℝ :=
  { current_temperature := some 60
    current_humidity := none
    feels_like_temperature := none
    dew_point := none
    comfort_status := none
    underlying_hvac_mode := none
    hvac_mode := "off"
    is_on := false }

/-- C7 (witness): with the controller switched off, a fully valid update
event (hot and humid readings) and a target change both emit no
command. -/
theorem no_commands_while_disabled_witness :
    ¬ (disabled_state.hvac_mode = "auto" ∧ disabled_state.is_on = true) ∧
    (async_update_state disabled_state
      (some (RawState.numeric 90)) (some (RawState.numeric 60))
      (some "cool") 72 45).2 = [] ∧
    (async_set_temperature disabled_state (some 68) 72 45).2 = [] := by
  refine ⟨by simp [disabled_state], ?_⟩
  exact no_commands_while_disabled disabled_state
    (some (RawState.numeric 90)) (some (RawState.numeric 60))
    (some "cool") (some 68) 72 45 (by simp [disabled_state])

/- Helper: with all four stored metrics present, the command list of
   _async_execute_comfort_control written out over the decided action. -/
lemma exec_unfold {α : Type} [LinearOrderedField α] (s : ControllerState α)
    (target_feels_like target_humidity ct ch fl dp : α)
    (h1 : s.current_temperature = some ct) (h2 : s.current_humidity = some ch)
    (h3 : s.feels_like_temperature = some fl) (h4 : s.dew_point = some dp) :
    async_execute_comfort_control s target_feels_like target_humidity =
      mode_command s.underlying_hvac_mode
        (determine_climate_action dp (fl - target_feels_like) ct ch
          target_humidity target_feels_like) ++
      setpoint_command
        (determine_climate_action dp (fl - target_feels_like) ct ch
          target_humidity target_feels_like) := by
  unfold async_execute_comfort_control
  rw [h1, h2, h3, h4]

/- Helper: membership of a set_temperature command in the emitted list. -/
lemma mem_setTemperature_exec {α : Type} [LinearOrderedField α]
    (s : ControllerState α) (target_feels_like target_humidity ct ch fl dp : α)
    (h1 : s.current_temperature = some ct) (h2 : s.current_humidity = some ch)
    (h3 : s.feels_like_temperature = some fl) (h4 : s.dew_point = some dp)
    (x : α) :
    Command.setTemperature x ∈
        async_execute_comfort_control s target_feels_like target_humidity ↔
      ((determine_climate_action dp (fl - target_feels_like) ct ch
          target_humidity target_feels_like).2 = some x ∧ x ≠ 0 ∧
        ((determine_climate_action dp (fl - target_feels_like) ct ch
          target_humidity target_feels_like).1 = "cool" ∨
         (determine_climate_action dp (fl - target_feels_like) ct ch
          target_humidity target_feels_like).1 = "dry")) := by
  rw [exec_unfold s target_feels_like target_humidity ct ch fl dp h1 h2 h3 h4]
  rcases determine_climate_action dp (fl - target_feels_like) ct ch
      target_humidity target_feels_like with ⟨m, sp⟩
  rcases sp with _ | y <;>
    simp only [mode_command, setpoint_command]
  · simp only [List.append_nil]
    constructor
    · intro hx
      exfalso
      split_ifs at hx <;> simp_all
    · rintro ⟨h, -⟩
      exact Option.noConfusion h
  · constructor
    · intro hx
      rcases List.mem_append.1 hx with hx | hx
      · split_ifs at hx <;> simp_all
      · split_ifs at hx with hcond
        · simp only [List.mem_singleton, Command.setTemperature.injEq] at hx
          subst hx
          exact ⟨rfl, hcond⟩
        · simp at hx
    · rintro ⟨hy, hx0, hmodes⟩
      obtain rfl : y = x := by injection hy
      apply List.mem_append.2
      right
      rw [if_pos ⟨hx0, hmodes⟩]
      simp


/- Helper: membership of a set_hvac_mode command in the emitted list. -/
lemma mem_setHvacMode_exec {α : Type} [LinearOrderedField α]
    (s : ControllerState α) (target_feels_like target_humidity ct ch fl dp : α)
    (h1 : s.current_temperature = some ct) (h2 : s.current_humidity = some ch)
    (h3 : s.feels_like_temperature = some fl) (h4 : s.dew_point = some dp)
    (m : String) :
    Command.setHvacMode m ∈
        async_execute_comfort_control s target_feels_like target_humidity ↔
      (m = (determine_climate_action dp (fl - target_feels_like) ct ch
          target_humidity target_feels_like).1 ∧
        some m ≠ s.underlying_hvac_mode) := by
  rw [exec_unfold s target_feels_like target_humidity ct ch fl dp h1 h2 h3 h4]
  rcases determine_climate_action dp (fl - target_feels_like) ct ch
      target_humidity target_feels_like with ⟨m0, sp⟩
  rcases sp with _ | y <;>
    simp only [mode_command, setpoint_command]
  · simp only [List.append_nil]
    constructor
    · intro hx
      split_ifs at hx with hcond
      · simp only [List.mem_singleton, Command.setHvacMode.injEq] at hx
        subst hx
        exact ⟨rfl, hcond⟩
      · simp at hx
    · rintro ⟨rfl, hne⟩
      rw [if_pos hne]
      simp
  · constructor
    · intro hx
      rcases List.mem_append.1 hx with hx | hx
      · split_ifs at hx with hcond
        · simp only [List.mem_singleton, Command.setHvacMode.injEq] at hx
          subst hx
          exact ⟨rfl, hcond⟩
        · simp at hx
      · split_ifs at hx <;> simp_all
    · rintro ⟨rfl, hne⟩
      apply List.mem_append.2
      left
      rw [if_pos hne]
      simp

/- Helper: a fan_only or off decision of the priority ladder carries no
   setpoint. -/
lemma action_fan_or_off_no_setpoint {α : Type} [LinearOrderedField α]
    (dew_point feels_like_diff current_temp current_humidity
      target_humidity target_feels_like : α) :
    ((determine_climate_action dew_point feels_like_diff current_temp
        current_humidity target_humidity target_feels_like).1 = "fan_only" ∨
      (determine_climate_action dew_point feels_like_diff current_temp
        current_humidity target_humidity target_feels_like).1 = "off") →
    (determine_climate_action dew_point feels_like_diff current_temp
      current_humidity target_humidity target_feels_like).2 = none := by
  unfold determine_climate_action
  split_ifs <;> simp

/- Helper: a setpoint is produced by the ladder only for cool or dry. -/
lemma action_setpoint_imp_cool_or_dry {α : Type} [LinearOrderedField α]
    (dew_point feels_like_diff current_temp current_humidity
      target_humidity target_feels_like : α) (x : α) :
    (determine_climate_action dew_point feels_like_diff current_temp
      current_humidity target_humidity target_feels_like).2 = some x →
    (determine_climate_action dew_point feels_like_diff current_temp
      current_humidity target_humidity target_feels_like).1 = "cool" ∨
    (determine_climate_action dew_point feels_like_diff current_temp
      current_humidity target_humidity target_feels_like).1 = "dry" := by
  unfold determine_climate_action
  split_ifs <;> simp

/-- C8: in every evaluation cycle that runs the comfort control (all
four stored metrics present), a set_hvac_mode command is emitted only
for the decided target mode and only when it differs from the observed
underlying mode; a set_temperature command is emitted only when the
decision produced that setpoint and the decided mode is cool or dry; and
a fan_only or off decision always carries no setpoint. -/
theorem execute_command_guards (s : ControllerState ℚ)
    (target_feels_like target_humidity ct ch fl dp : ℚ)
    (h1 : s.current_temperature = some ct) (h2 : s.current_humidity = some ch)
    (h3 : s.feels_like_temperature = some fl) (h4 : s.dew_point = some dp) :
    (∀ m, Command.setHvacMode m ∈
        async_execute_comfort_control s target_feels_like target_humidity →
      m = (determine_climate_action dp (fl - target_feels_like) ct ch
          target_humidity target_feels_like).1 ∧
        some m ≠ s.underlying_hvac_mode) ∧
    (∀ x, Command.setTemperature x ∈
        async_execute_comfort_control s target_feels_like target_humidity →
      (determine_climate_action dp (fl - target_feels_like) ct ch
          target_humidity target_feels_like).2 = some x ∧
        ((determine_climate_action dp (fl - target_feels_like) ct ch
            target_humidity target_feels_like).1 = "cool" ∨
          (determine_climate_action dp (fl - target_feels_like) ct ch
            target_humidity target_feels_like).1 = "dry")) ∧
    (((determine_climate_action dp (fl - target_feels_like) ct ch
        target_humidity target_feels_like).1 = "fan_only" ∨
      (determine_climate_action dp (fl - target_feels_like) ct ch
        target_humidity target_feels_like).1 = "off") →
      (determine_climate_action dp (fl - target_feels_like) ct ch
        target_humidity target_feels_like).2 = none) := by
  refine ⟨?_, ?_, ?_⟩
  · intro m hm
    exact (mem_setHvacMode_exec s target_feels_like target_humidity
      ct ch fl dp h1 h2 h3 h4 m).1 hm
  · intro x hx
    have h := (mem_setTemperature_exec s target_feels_like target_humidity
      ct ch fl dp h1 h2 h3 h4 x).1 hx
    exact ⟨h.1, h.2.2⟩
  · exact action_fan_or_off_no_setpoint dp (fl - target_feels_like) ct ch
      target_humidity target_feels_like

/- A concrete state with all four metrics stored: 75 degrees, 50 percent
   humidity, feels-like 80, dew point 60, underlying device off. -/
def heat_state : ControllerState ℚ :=
  { current_temperature := some 75
    current_humidity := some 50
    feels_like_temperature := some 80
    dew_point := some 60
    comfort_status := none
    underlying_hvac_mode := some "off"
    hvac_mode := "auto"
    is_on := true }

/-- C8 (witness): the command guards instantiated at a concrete hot and
humid state with target feels-like 72 and target humidity 45. -/
theorem execute_command_guards_witness :
    (∀ m, Command.setHvacMode m ∈
        async_execute_comfort_control heat_state 72 45 →
      m = (determine_climate_action (60 : ℚ) (80 - 72) 75 50 45 72).1 ∧
        some m ≠ heat_state.underlying_hvac_mode) ∧
    (∀ x, Command.setTemperature x ∈
        async_execute_comfort_control heat_state 72 45 →
      (determine_climate_action (60 : ℚ) (80 - 72) 75 50 45 72).2 = some x ∧
        ((determine_climate_action (60 : ℚ) (80 - 72) 75 50 45 72).1 = "cool" ∨
          (determine_climate_action (60 : ℚ) (80 - 72) 75 50 45 72).1 = "dry")) ∧
    (((determine_climate_action (60 : ℚ) (80 - 72) 75 50 45 72).1 = "fan_only" ∨
      (determine_climate_action (60 : ℚ) (80 - 72) 75 50 45 72).1 = "off") →
      (determine_climate_action (60 : ℚ) (80 - 72) 75 50 45 72).2 = none) :=
  execute_command_guards heat_state 72 45 75 50 80 60 rfl rfl rfl rfl

/-- C10: the setpoint guard of the comfort control tests Python
truthiness rather than presence: a decision whose setpoint is exactly 0
emits no set_temperature command even in cool or dry mode, while any
nonzero produced setpoint is emitted. -/
theorem setpoint_zero_truthiness (s : ControllerState ℚ)
    (target_feels_like target_humidity ct ch fl dp : ℚ)
    (h1 : s.current_temperature = some ct) (h2 : s.current_humidity = some ch)
    (h3 : s.feels_like_temperature = some fl) (h4 : s.dew_point = some dp) :
    ((determine_climate_action dp (fl - target_feels_like) ct ch
        target_humidity target_feels_like).2 = some 0 →
      ∀ x, Command.setTemperature x ∉
        async_execute_comfort_control s target_feels_like target_humidity) ∧
    (∀ x, (determine_climate_action dp (fl - target_feels_like) ct ch
        target_humidity target_feels_like).2 = some x → x ≠ 0 →
      Command.setTemperature x ∈
        async_execute_comfort_control s target_feels_like target_humidity) := by
  constructor
  · intro hzero x hx
    have h := (mem_setTemperature_exec s target_feels_like target_humidity
      ct ch fl dp h1 h2 h3 h4 x).1 hx
    rw [hzero] at h
    have : (0 : ℚ) = x := Option.some.inj h.1
    exact h.2.1 this.symm
  · intro x hsome hx0
    exact (mem_setTemperature_exec s target_feels_like target_humidity
      ct ch fl dp h1 h2 h3 h4 x).2
      ⟨hsome, hx0, action_setpoint_imp_cool_or_dry dp
        (fl - target_feels_like) ct ch target_humidity target_feels_like
        x hsome⟩

/- A concrete state that decides dry with a setpoint of exactly 0:
   humidity 80 over the 45 target, feels-like 1 against a target
   feels-like of 0. -/
def zero_setpoint_state : ControllerState ℚ :=
  { current_temperature := some 50
    current_humidity := some 80
    feels_like_temperature := some 1
    dew_point := some 70
    comfort_status := none
    underlying_hvac_mode := some "dry"
    hvac_mode := "auto"
    is_on := true }

/-- C10 (witness): with target feels-like 0 and humidity over target,
the decision is dry at setpoint 0 and no set_temperature command is
emitted. -/
theorem setpoint_zero_truthiness_witness :
    (determine_climate_action (70 : ℚ) (1 - 0) 50 80 45 0).2 = some 0 ∧
    (∀ x, Command.setTemperature x ∉
      async_execute_comfort_control zero_setpoint_state 0 45) := by
  refine ⟨by norm_num [determine_climate_action], ?_⟩
  exact (setpoint_zero_truthiness zero_setpoint_state 0 45 50 80 1 70
    rfl rfl rfl rfl).1 (by norm_num [determine_climate_action])

/- Helper: on the domain 0 < humidity ≤ 100 the dew point is the Magnus
   expression written out. -/
lemma dew_point_eval (t h : ℝ) (h0 : 0 < h) (h100 : h ≤ 100) :
    calculate_dew_point t h =
      243.04 * (Real.log (h / 100) +
          17.625 * ((t - 32) * 5 / 9) / (243.04 + (t - 32) * 5 / 9)) /
        (17.625 - (Real.log (h / 100) +
          17.625 * ((t - 32) * 5 / 9) / (243.04 + (t - 32) * 5 / 9))) *
        9 / 5 + 32 := by
  have hok : ¬ (h ≤ 0 ∨ h > 100) := by rintro (hh | hh) <;> linarith
  unfold calculate_dew_point
  rw [if_neg hok]

/- Helper: the Celsius temperature term of alpha is monotone in the
   Fahrenheit temperature above -400. -/
lemma temp_term_mono (t1 t2 : ℝ) (ht1 : -400 ≤ t1) (h12 : t1 ≤ t2) :
    17.625 * ((t1 - 32) * 5 / 9) / (243.04 + (t1 - 32) * 5 / 9) ≤
      17.625 * ((t2 - 32) * 5 / 9) / (243.04 + (t2 - 32) * 5 / 9) := by
  have hd1 : 0 < 243.04 + (t1 - 32) * 5 / 9 := by linarith
  have hd2 : 0 < 243.04 + (t2 - 32) * 5 / 9 := by linarith
  rw [div_le_div_iff₀ hd1 hd2]
  nlinarith

/- Helper: the temperature term of alpha is below the Magnus constant
   a = 17.625. -/
lemma temp_term_lt (t : ℝ) (ht : -400 ≤ t) :
    17.625 * ((t - 32) * 5 / 9) / (243.04 + (t - 32) * 5 / 9) < 17.625 := by
  have hd : 0 < 243.04 + (t - 32) * 5 / 9 := by linarith
  rw [div_lt_iff₀ hd]
  nlinarith

/- Helper: alpha stays below a = 17.625 on the physical domain. -/
lemma alpha_lt_a (t h : ℝ) (ht : -400 ≤ t) (h0 : 0 < h) (h100 : h ≤ 100) :
    Real.log (h / 100) +
        17.625 * ((t - 32) * 5 / 9) / (243.04 + (t - 32) * 5 / 9) < 17.625 := by
  have hlog : Real.log (h / 100) ≤ 0 :=
    Real.log_nonpos (by positivity) ((div_le_one (by norm_num)).mpr h100)
  have hfrac := temp_term_lt t ht
  linarith

/- Helper: the outer Magnus map alpha to b*alpha/(a-alpha), converted to
   Fahrenheit, is monotone below a. -/
lemma magnus_outer_mono (x y : ℝ) (hxy : x ≤ y) (hy : y < 17.625) :
    243.04 * x / (17.625 - x) * 9 / 5 + 32 ≤
      243.04 * y / (17.625 - y) * 9 / 5 + 32 := by
  have hx : 0 < 17.625 - x := by linarith
  have hy' : 0 < 17.625 - y := by linarith
  have key : 243.04 * x / (17.625 - x) ≤ 243.04 * y / (17.625 - y) := by
    rw [div_le_div_iff₀ hx hy']
    nlinarith
  linarith

/-- C9: within the physical domain (humidity in (0, 100] and temperature
at least -400 degrees Fahrenheit, which covers all physically meaningful
temperatures), the dew point is monotone non-decreasing in humidity for
each fixed temperature and monotone non-decreasing in temperature for
each fixed humidity. -/
theorem dew_point_monotone :
    (∀ t h1 h2 : ℝ, -400 ≤ t → 0 < h1 → h1 ≤ h2 → h2 ≤ 100 →
      calculate_dew_point t h1 ≤ calculate_dew_point t h2) ∧
    (∀ t1 t2 h : ℝ, -400 ≤ t1 → t1 ≤ t2 → 0 < h → h ≤ 100 →
      calculate_dew_point t1 h ≤ calculate_dew_point t2 h) := by
  constructor
  · intro t h1 h2 ht h0 h12 h100
    rw [dew_point_eval t h1 h0 (le_trans h12 h100),
      dew_point_eval t h2 (lt_of_lt_of_le h0 h12) h100]
    apply magnus_outer_mono
    · have hlog := Real.log_le_log
        (show (0 : ℝ) < h1 / 100 by positivity)
        (show h1 / 100 ≤ h2 / 100 by linarith)
      linarith
    · exact alpha_lt_a t h2 ht (lt_of_lt_of_le h0 h12) h100
  · intro t1 t2 h ht1 h12 h0 h100
    rw [dew_point_eval t1 h h0 h100, dew_point_eval t2 h h0 h100]
    apply magnus_outer_mono
    · have hfrac := temp_term_mono t1 t2 ht1 h12
      linarith
    · exact alpha_lt_a t2 h (le_trans ht1 h12) h0 h100

/-- C9 (witness): at a fixed 70 degrees the dew point does not decrease
from 40 percent to 60 percent humidity, and at a fixed 50 percent it
does not decrease from 60 to 80 degrees. -/
theorem dew_point_monotone_witness :
    ((-400 : ℝ) ≤ 70 ∧ (0 : ℝ) < 40 ∧ (40 : ℝ) ≤ 60 ∧ (60 : ℝ) ≤ 100 ∧
      calculate_dew_point 70 40 ≤ calculate_dew_point 70 60) ∧
    ((-400 : ℝ) ≤ 60 ∧ (60 : ℝ) ≤ 80 ∧ (0 : ℝ) < 50 ∧ (50 : ℝ) ≤ 100 ∧
      calculate_dew_point 60 50 ≤ calculate_dew_point 80 50) := by
  refine ⟨⟨by norm_num, by norm_num, by norm_num, by norm_num, ?_⟩,
    by norm_num, by norm_num, by norm_num, by norm_num, ?_⟩
  · exact dew_point_monotone.1 70 40 60 (by norm_num) (by norm_num)
      (by norm_num) (by norm_num)
  · exact dew_point_monotone.2 60 80 50 (by norm_num) (by norm_num)
      (by norm_num) (by norm_num)

end SmartComfortClimate
